import Mathlib

/-!
# Verification of the demo trading bot (`demo_trader.py`)

A shallow embedding of the position/risk state machine of `demo_trader.py`.
Conventions of the embedding:

* All numeric values (prices, amounts, balances) are modelled as exact
  rationals `ℚ`; Python floats are idealized as exact arithmetic.
* Python's `round(x, n)` is modelled by `pyRound n` (round half to even, as
  Python documents).
* Timestamps (`opened_at`, `closed_at`, `time`) are presentation-only and are
  omitted from the records.
* The human-readable `action_message` strings are kept as `String`s (the code
  tests `if not action_message:`), but their decimal formatting and emoji are
  abstracted to short plain-ASCII texts; no claim depends on the message text.
* Python truthiness of a numeric stop/new-stop (`if stop_loss:`) is modelled
  as `≠ 0`; the field `stop_loss` is a rational where `0` plays `None`/falsy.
* The `risk_manager` module is not part of the sources; its functions are
  abstracted as a `RiskPolicy` record of pure functions passed to the state
  machine (config is folded into the record).  `record_trade_result` mutates
  only policy-side state external to the trade data and is omitted.
* The persisted JSON store is the `TradeData` state threaded through the
  functions; `load_trades`/`save_trades` are the state in/out.
-/

/-- `round` half to even on an integer-scaled rational, as in Python. -/
def roundHalfEven (q : ℚ) : ℤ :=
  let f := ⌊q⌋
  let r := q - (f : ℚ)
  if r < 1/2 then f
  else if 1/2 < r then f + 1
  else if f % 2 = 0 then f else f + 1

/-- Python `round(q, d)` on the rational model. -/
def pyRound (d : ℕ) (q : ℚ) : ℚ := (roundHalfEven (q * 10 ^ d) : ℚ) / 10 ^ d

/-- `round(_, 2)` as used throughout `demo_trader.py`. -/
def round2 : ℚ → ℚ := pyRound 2

/-- `round(_, 6)` as used for `amount_closed`. -/
def round6 : ℚ → ℚ := pyRound 6

/-- Python `str.capitalize()` (ASCII): first character upper, rest lower. -/
def pyCapitalize (s : String) : String :=
  match s.data with
  | [] => ""
  | c :: cs => ⟨c.toUpper :: cs.map Char.toLower⟩

/-- Module constant `START_BALANCE = 10000`. -/
def START_BALANCE : ℚ := 10000

/-- Module constant `COINS_PER_TRADE = 0.001`. -/
def COINS_PER_TRADE : ℚ := 1/1000

/-- Module constant `BTC_USDT_RATE = 85` (quote→account conversion rate). -/
def BTC_USDT_RATE : ℚ := 85

/-- One take-profit ladder level, as stored in `open_trade["tp_levels"]`. -/
structure TPLevel where
  name : String
  price : ℚ
  percentage : ℚ
  hit : Bool
deriving DecidableEq, Repr

/-- The `open_trade` dict: the single open position.  `stop_loss = 0` models a
falsy/absent stop (`if stop_loss:` in the source). -/
structure OpenTrade where
  type : String
  entry_price : ℚ
  amount : ℚ
  original_amount : ℚ
  stop_loss : ℚ
  tp_levels : List TPLevel
  strategy : String
  atr_at_entry : ℚ
  breakeven_moved : Bool
deriving DecidableEq, Repr

/-- A history record (both the full-close and the partial-close dict shapes;
fields absent from a shape are `none`).  `part` is the `"partial"` flag. -/
structure TradeRecord where
  type : String
  entry_price : ℚ
  exit_price : ℚ
  amount : Option ℚ
  amount_closed : Option ℚ
  profit_usdt : ℚ
  profit_inr : ℚ
  balance_before : Option ℚ
  balance_after : Option ℚ
  exit_reason : Option String
  tp_level : Option ℚ
  tp_name : Option String
  tp_levels_hit : Option (List String)
  part : Bool
deriving DecidableEq, Repr

/-- One `order_log` entry (the `log_entry` dict built per tick). -/
structure LogEntry where
  side : String
  price : ℚ
  quantity : ℚ
  action : Option String
  pl_inr : Option ℚ
  stop_loss : Option ℚ
  take_profits : Option (List ℚ)
deriving DecidableEq, Repr

/-- The persisted store (`demo_trades.json`). -/
structure TradeData where
  balance : ℚ
  open_trade : Option OpenTrade
  history : List TradeRecord
  order_log : List LogEntry
  last_signal : Option String
deriving DecidableEq, Repr

/-- The `risk_manager` interface used by `demo_trader.py`, abstracted as pure
functions (the module is outside the embedded sources; the risk config is
folded into the record).  `trailing_enabled` is
`config["stop_loss"]["trailing_enabled"]`. -/
structure RiskPolicy where
  can_open_trade : ℚ → Bool × String
  calculate_position_size : ℚ → ℚ
  calculate_stop_loss : ℚ → String → ℚ → ℚ → ℚ
  calculate_take_profit_levels : ℚ → String → ℚ → List TPLevel
  update_trailing_stop : ℚ → String → ℚ → ℚ → Option ℚ
  move_stop_to_breakeven : ℚ → String → ℚ
  trailing_enabled : Bool

/-- Result of `check_tp_sl_hits`: the `(hit_type, details)` pair.  `slHit`
carries the stop price of the `"SL"` details; `tpHit` carries the level name
(the dispatch in `update_demo_trade` is on this string) and the
`price`/`percentage`/`index` details. -/
inductive CheckResult where
  | noHit
  | slHit (price : ℚ)
  | tpHit (name : String) (price : ℚ) (percentage : ℚ) (index : ℕ)
deriving DecidableEq, Repr

/-- The `for i, tp in enumerate(tp_levels)` loop of `check_tp_sl_hits`:
first un-hit level (in index order) whose price is crossed for the side. -/
def findTpHit (position_type : String) (current_price : ℚ) :
    List TPLevel → ℕ → CheckResult
  | [], _ => .noHit
  | tp :: rest, i =>
    if tp.hit then findTpHit position_type current_price rest (i + 1)
    else if position_type = "LONG" ∧ tp.price ≤ current_price then
      .tpHit tp.name tp.price tp.percentage i
    else if position_type = "SHORT" ∧ current_price ≤ tp.price then
      .tpHit tp.name tp.price tp.percentage i
    else findTpHit position_type current_price rest (i + 1)

/-- `check_tp_sl_hits(open_trade, current_price)`: stop-loss first, then the
take-profit ladder. -/
def check_tp_sl_hits (open_trade : Option OpenTrade) (current_price : ℚ) :
    CheckResult :=
  match open_trade with
  | none => .noHit
  | some ot =>
    if ot.stop_loss ≠ 0 ∧ ot.type = "LONG" ∧ current_price ≤ ot.stop_loss then
      .slHit ot.stop_loss
    else if ot.stop_loss ≠ 0 ∧ ot.type = "SHORT" ∧ ot.stop_loss ≤ current_price then
      .slHit ot.stop_loss
    else findTpHit ot.type current_price ot.tp_levels 0

/-- `open_trade["tp_levels"][i]["hit"] = True` (out-of-range leaves the list
unchanged; the source only ever uses in-range indices). -/
def markHit : List TPLevel → ℕ → List TPLevel
  | [], _ => []
  | tp :: rest, 0 => { tp with hit := true } :: rest
  | tp :: rest, n + 1 => tp :: markHit rest n

/-- `partial_close_position(data, open_trade, current_price, tp_details)`
(source name starts with the Lean keyword, hence `part_close_position`):
closes `percentage` of `original_amount`, credits the converted profit,
marks the level hit, appends the partial record, and moves the stop to
breakeven after the first level when a stop exists. -/
def part_close_position (rp : RiskPolicy) (data : TradeData)
    (open_trade : OpenTrade) (current_price : ℚ)
    (tp_price tp_percentage : ℚ) (tp_index : ℕ) :
    TradeRecord × TradeData × OpenTrade :=
  let entry_price := open_trade.entry_price
  let original_amount := open_trade.original_amount
  let amount_to_close := original_amount * (tp_percentage / 100)
  let profit_usdt :=
    if open_trade.type = "LONG" then (current_price - entry_price) * amount_to_close
    else (entry_price - current_price) * amount_to_close
  let profit_inr := profit_usdt * BTC_USDT_RATE
  let data1 := { data with balance := data.balance + profit_inr }
  let ot1 := { open_trade with
    tp_levels := markHit open_trade.tp_levels tp_index,
    amount := open_trade.amount - amount_to_close }
  let part_record : TradeRecord :=
    { type := open_trade.type
      entry_price := entry_price
      exit_price := current_price
      amount := none
      amount_closed := some (round6 amount_to_close)
      profit_usdt := round2 profit_usdt
      profit_inr := round2 profit_inr
      balance_before := none
      balance_after := none
      exit_reason := none
      tp_level := some tp_price
      tp_name := some ("TP" ++ toString (tp_index + 1))
      tp_levels_hit := none
      part := true }
  let data2 := { data1 with history := data1.history ++ [part_record] }
  let ot2 :=
    if tp_index = 0 ∧ ot1.stop_loss ≠ 0 then
      { ot1 with
        stop_loss := rp.move_stop_to_breakeven entry_price open_trade.type,
        breakeven_moved := true }
    else ot1
  (part_record, data2, ot2)

/-- `close_full_position(data, open_trade, current_price, reason)`: realizes
the P/L on the whole remaining amount, credits the balance, appends the full
record with the balance snapshot, and clears the open position. -/
def close_full_position (data : TradeData) (open_trade : OpenTrade)
    (current_price : ℚ) (reason : String) : TradeRecord × TradeData :=
  let entry_price := open_trade.entry_price
  let amount := open_trade.amount
  let profit_usdt :=
    if open_trade.type = "LONG" then (current_price - entry_price) * amount
    else (entry_price - current_price) * amount
  let profit_inr := profit_usdt * BTC_USDT_RATE
  let balance_before := data.balance
  let new_balance := data.balance + profit_inr
  let trade_record : TradeRecord :=
    { type := open_trade.type
      entry_price := entry_price
      exit_price := current_price
      amount := some amount
      amount_closed := none
      profit_usdt := round2 profit_usdt
      profit_inr := round2 profit_inr
      balance_before := some (round2 balance_before)
      balance_after := some (round2 new_balance)
      exit_reason := some reason
      tp_level := none
      tp_name := none
      tp_levels_hit := some (((open_trade.tp_levels.filter (fun tp => tp.hit)).map (fun tp => tp.name)))
      part := false }
  (trade_record,
    { data with
      balance := new_balance
      history := data.history ++ [trade_record]
      open_trade := none })

/-- Character-list version of Python's `str.startswith`. -/
def listPre : List Char → List Char → Bool
  | [], _ => true
  | _ :: _, [] => false
  | p :: ps, c :: cs => (p == c) && listPre ps cs

/-- Python `hit_type.startswith("TP")`-style test (structural, so that it
evaluates on literals). -/
def strStarts (s pre : String) : Bool := listPre pre.data s.data

/-- The mutable locals of one `update_demo_trade` tick: the store, the local
`open_trade` variable, `action_message`, `last_closed_trade`, `log_entry`. -/
structure TickState where
  data : TradeData
  open_trade : Option OpenTrade
  action_message : String
  last_closed_trade : Option TradeRecord
  log_entry : LogEntry
deriving DecidableEq, Repr

/-- The trailing-stop `else:` branch of step 1 (lines 194–206): once breakeven
was moved and trailing is enabled, ratchet the stop when `update_trailing_stop`
returns a truthy new stop. -/
def trailingStep (rp : RiskPolicy) (price atr_value : ℚ) (s : TickState)
    (ot : OpenTrade) : TickState :=
  if ot.breakeven_moved ∧ rp.trailing_enabled then
    match rp.update_trailing_stop price ot.type ot.stop_loss atr_value with
    | some ns =>
      if ns ≠ 0 then
        { s with
          open_trade := some { ot with stop_loss := ns },
          action_message := "Trailing stop updated",
          log_entry := { s.log_entry with action := some "TRAILING_STOP_UPDATE" } }
      else s
    | none => s
  else s

/-- The `"SL"` dispatch target of step 1: full close, reason `"Stop-Loss
Hit"`, log action `STOP_LOSS`, `last_closed_trade` set. -/
def slClose (price : ℚ) (s : TickState) (ot : OpenTrade) : TickState :=
  let pc := close_full_position s.data ot price "Stop-Loss Hit"
  { s with
    data := pc.2
    open_trade := none
    last_closed_trade := some pc.1
    action_message := "STOP-LOSS HIT"
    log_entry := { s.log_entry with action := some "STOP_LOSS", pl_inr := some pc.1.profit_inr } }

/-- Step 1 of `update_demo_trade` (lines 171–206): exit handling for an open
position — stop-loss full close, take-profit partial close (full-closing the
remainder once every level is hit), or trailing-stop update. -/
def step1 (rp : RiskPolicy) (price atr_value : ℚ) (s : TickState) : TickState :=
  match s.open_trade with
  | none => s
  | some ot =>
    match check_tp_sl_hits (some ot) price with
    | .slHit _ => slClose price s ot
    | .tpHit name tpp tppct tpi =>
      if name = "SL" then slClose price s ot
      else if strStarts name "TP" then
        let pc := part_close_position rp s.data ot price tpp tppct tpi
        let s1 := { s with
          data := pc.2.1
          open_trade := some pc.2.2
          action_message := name ++ " HIT"
          log_entry := { s.log_entry with
            action := some (name ++ "_HIT"), pl_inr := some pc.1.profit_inr } }
        if pc.2.2.tp_levels.filter (fun tp => !tp.hit) = [] then
          let fc := close_full_position s1.data pc.2.2 price "All TPs Hit"
          { s1 with
            data := fc.2
            open_trade := none
            action_message := s1.action_message ++ " | Closed remaining" }
        else s1
      else trailingStep rp price atr_value s ot
    | .noHit => trailingStep rp price atr_value s ot

/-- The shared open-a-LONG tail of the `Buy` branch (close an existing SHORT
first with reason `"Opposite Signal"`, then size/stop/ladder a fresh LONG at
the same tick price from the Risk Policy). -/
def buyOpen (rp : RiskPolicy) (price atr_value utbot_stop : ℚ)
    (s : TickState) : TickState :=
  let s1 :=
    match s.open_trade with
    | some ot =>
      if ot.type = "SHORT" then
        let pc := close_full_position s.data ot price "Opposite Signal"
        { s with
          data := pc.2
          open_trade := none
          last_closed_trade := some pc.1
          action_message := "CLOSED SHORT | "
          log_entry := { s.log_entry with action := some "CLOSE_SHORT" } }
      else s
    | none => s
  let position_size := rp.calculate_position_size s1.data.balance
  let stop_loss_price := rp.calculate_stop_loss price "LONG" atr_value utbot_stop
  let tp_levels := rp.calculate_take_profit_levels price "LONG" atr_value
  let new_trade : OpenTrade :=
    { type := "LONG"
      entry_price := price
      amount := position_size
      original_amount := position_size
      stop_loss := stop_loss_price
      tp_levels := tp_levels
      strategy := "UT Bot #2 (KV=2, ATR=300)"
      atr_at_entry := atr_value
      breakeven_moved := false }
  { s1 with
    open_trade := some new_trade
    data := { s1.data with last_signal := some "Buy" }
    action_message := s1.action_message ++ "OPENED LONG"
    log_entry := { s1.log_entry with
      action := some "OPEN_LONG"
      stop_loss := some stop_loss_price
      take_profits := some (tp_levels.map (fun tp => tp.price)) } }

/-- The shared open-a-SHORT tail of the `Sell` branch (symmetric to
`buyOpen`). -/
def sellOpen (rp : RiskPolicy) (price atr_value utbot_stop : ℚ)
    (s : TickState) : TickState :=
  let s1 :=
    match s.open_trade with
    | some ot =>
      if ot.type = "LONG" then
        let pc := close_full_position s.data ot price "Opposite Signal"
        { s with
          data := pc.2
          open_trade := none
          last_closed_trade := some pc.1
          action_message := "CLOSED LONG | "
          log_entry := { s.log_entry with action := some "CLOSE_LONG" } }
      else s
    | none => s
  let position_size := rp.calculate_position_size s1.data.balance
  let stop_loss_price := rp.calculate_stop_loss price "SHORT" atr_value utbot_stop
  let tp_levels := rp.calculate_take_profit_levels price "SHORT" atr_value
  let new_trade : OpenTrade :=
    { type := "SHORT"
      entry_price := price
      amount := position_size
      original_amount := position_size
      stop_loss := stop_loss_price
      tp_levels := tp_levels
      strategy := "UT Bot #1 (KV=2, ATR=1)"
      atr_at_entry := atr_value
      breakeven_moved := false }
  { s1 with
    open_trade := some new_trade
    data := { s1.data with last_signal := some "Sell" }
    action_message := s1.action_message ++ "OPENED SHORT"
    log_entry := { s1.log_entry with
      action := some "OPEN_SHORT"
      stop_loss := some stop_loss_price
      take_profits := some (tp_levels.map (fun tp => tp.price)) } }

/-- Step 2 of `update_demo_trade` (lines 208–293): apply the (already
capitalized) signal.  Signals other than `"Hold"`/`"Buy"`/`"Sell"` fall
through every branch and change nothing. -/
def signal_step (rp : RiskPolicy) (signal : String)
    (price atr_value utbot_stop : ℚ) (s : TickState) : TickState :=
  if signal = "Hold" then
    if s.action_message = "" then
      { s with
        action_message := "Holding position. Waiting for next signal."
        log_entry := { s.log_entry with action := some "HOLD" } }
    else s
  else if signal = "Buy" then
    let trade_check := rp.can_open_trade s.data.balance
    if trade_check.1 = false then
      { s with
        action_message := "Cannot open BUY: " ++ trade_check.2
        log_entry := { s.log_entry with action := some "BLOCKED" } }
    else
      match s.open_trade with
      | some ot =>
        if ot.type = "LONG" then
          { s with
            action_message := "Ignoring repeated Buy signal. Already in LONG position."
            log_entry := { s.log_entry with action := some "IGNORED" } }
        else buyOpen rp price atr_value utbot_stop s
      | none => buyOpen rp price atr_value utbot_stop s
  else if signal = "Sell" then
    let trade_check := rp.can_open_trade s.data.balance
    if trade_check.1 = false then
      { s with
        action_message := "Cannot open SELL: " ++ trade_check.2
        log_entry := { s.log_entry with action := some "BLOCKED" } }
    else
      match s.open_trade with
      | some ot =>
        if ot.type = "SHORT" then
          { s with
            action_message := "Ignoring repeated Sell signal. Already in SHORT position."
            log_entry := { s.log_entry with action := some "IGNORED" } }
        else sellOpen rp price atr_value utbot_stop s
      | none => sellOpen rp price atr_value utbot_stop s
  else s

/-- The `general_status` dict returned by `update_demo_trade`. -/
structure GeneralStatus where
  balance : ℚ
  holding : Bool
  position_type : Option String
  action : String
  stop_loss : Option ℚ
  tp_levels : List TPLevel
  position_size : ℚ
deriving DecidableEq, Repr

/-- `update_demo_trade(signal, price, atr_value, utbot_stop)`: capitalize the
signal, run exit handling then signal handling, append the tick's log entry,
store the resulting open trade, and return
`(general_status, last_closed_trade, log_entry)` together with the persisted
store. -/
def update_demo_trade (rp : RiskPolicy) (signal0 : String)
    (price atr_value utbot_stop : ℚ) (data0 : TradeData) :
    GeneralStatus × Option TradeRecord × LogEntry × TradeData :=
  let signal := pyCapitalize signal0
  let log0 : LogEntry :=
    { side := signal, price := price, quantity := COINS_PER_TRADE,
      action := none, pl_inr := none, stop_loss := none, take_profits := none }
  let s0 : TickState :=
    { data := data0, open_trade := data0.open_trade, action_message := "",
      last_closed_trade := none, log_entry := log0 }
  let s1 := step1 rp price atr_value s0
  let s2 := signal_step rp signal price atr_value utbot_stop s1
  let dataF := { s2.data with
    order_log := s2.data.order_log ++ [s2.log_entry]
    open_trade := s2.open_trade }
  let status : GeneralStatus :=
    { balance := round2 dataF.balance
      holding := dataF.open_trade.isSome
      position_type := dataF.open_trade.map (fun t => t.type)
      action := s2.action_message
      stop_loss := dataF.open_trade.map (fun t => t.stop_loss)
      tp_levels := match dataF.open_trade with | some t => t.tp_levels | none => []
      position_size := match dataF.open_trade with | some t => t.amount | none => 0 }
  (status, s2.last_closed_trade, s2.log_entry, dataF)

/-- The `get_performance_summary()` result dict; the three `Option` fields are
present only on the non-empty-history shape. -/
structure PerfSummary where
  total_trades : ℕ
  winning_trades : ℕ
  losing_trades : ℕ
  total_profit_inr : ℚ
  win_rate : ℚ
  current_balance : Option ℚ
  starting_balance : Option ℚ
  total_return : Option ℚ
deriving DecidableEq, Repr

/-- `get_performance_summary()`: fold over history, strict-sign win/loss
classification, `win_rate = winning/total*100` (0 for an empty history). -/
def get_performance_summary (data : TradeData) : PerfSummary :=
  if data.history = [] then
    { total_trades := 0, winning_trades := 0, losing_trades := 0,
      total_profit_inr := 0, win_rate := 0,
      current_balance := none, starting_balance := none, total_return := none }
  else
    let total_trades := data.history.length
    let winning_trades := (data.history.filter (fun t => 0 < t.profit_inr)).length
    let losing_trades := (data.history.filter (fun t => t.profit_inr < 0)).length
    let total_profit_inr := (data.history.map (fun t => t.profit_inr)).sum
    let win_rate : ℚ :=
      if 0 < total_trades then (winning_trades : ℚ) / (total_trades : ℚ) * 100 else 0
    { total_trades := total_trades
      winning_trades := winning_trades
      losing_trades := losing_trades
      total_profit_inr := round2 total_profit_inr
      win_rate := round2 win_rate
      current_balance := some (round2 data.balance)
      starting_balance := some START_BALANCE
      total_return := some (round2 (data.balance - START_BALANCE)) }

/-- Modelled from the spec: the `risk_manager` module is absent from the
sources, so this concrete `RiskPolicy` instance follows §4.1 of the
specification — a positive-balance gate, a fixed unit position size, an
ATR-based stop on the loss side of entry, a two-level 50/50 take-profit
ladder in the profit direction, a favorable-only trailing ratchet, and
breakeven = entry price.  It is used only to instantiate theorems at
concrete inputs. -/
def specPolicy : RiskPolicy where
  can_open_trade := fun b => (decide (0 < b), if 0 < b then "ok" else "insufficient balance")
  calculate_position_size := fun _ => COINS_PER_TRADE
  calculate_stop_loss := fun price side atr _ =>
    if side = "LONG" then price - 2 * atr else price + 2 * atr
  calculate_take_profit_levels := fun price side atr =>
    [ { name := "TP1", price := if side = "LONG" then price + atr else price - atr,
        percentage := 50, hit := false },
      { name := "TP2", price := if side = "LONG" then price + 2 * atr else price - 2 * atr,
        percentage := 50, hit := false } ]
  update_trailing_stop := fun price side current_stop atr =>
    if side = "LONG" ∧ current_stop < price - 3 * atr then some (price - 3 * atr)
    else if side = "SHORT" ∧ price + 3 * atr < current_stop then some (price + 3 * atr)
    else none
  move_stop_to_breakeven := fun entry _ => entry
  trailing_enabled := true

/-- A fresh store, as `load_trades` creates it when no file exists. -/
def egFlatData : TradeData :=
  { balance := 10000, open_trade := none, history := [], order_log := [],
    last_signal := none }

/-- A concrete open LONG position with a 50/50 two-level ladder. -/
def egLong : OpenTrade :=
  { type := "LONG", entry_price := 100, amount := 1/1000,
    original_amount := 1/1000, stop_loss := 95,
    tp_levels := [⟨"TP1", 101, 50, false⟩, ⟨"TP2", 102, 50, false⟩],
    strategy := "UT Bot #2 (KV=2, ATR=300)", atr_at_entry := 1,
    breakeven_moved := false }

/-- A concrete open SHORT position with a 50/50 two-level ladder. -/
def egShort : OpenTrade :=
  { type := "SHORT", entry_price := 100, amount := 1/1000,
    original_amount := 1/1000, stop_loss := 105,
    tp_levels := [⟨"TP1", 99, 50, false⟩, ⟨"TP2", 98, 50, false⟩],
    strategy := "UT Bot #1 (KV=2, ATR=1)", atr_at_entry := 1,
    breakeven_moved := false }

/-- The store holding `egLong`. -/
def egLongData : TradeData := { egFlatData with open_trade := some egLong }

/-- The store holding `egShort`. -/
def egShortData : TradeData := { egFlatData with open_trade := some egShort }

/-- A blank per-tick log entry at price 100. -/
def egLogEntry : LogEntry :=
  { side := "Buy", price := 100, quantity := COINS_PER_TRADE, action := none,
    pl_inr := none, stop_loss := none, take_profits := none }

/-- Mid-tick state with `egLong` open. -/
def egLongState : TickState :=
  { data := egLongData, open_trade := some egLong, action_message := "",
    last_closed_trade := none, log_entry := egLogEntry }

/-- Mid-tick state with `egShort` open. -/
def egShortState : TickState :=
  { data := egShortData, open_trade := some egShort, action_message := "",
    last_closed_trade := none, log_entry := egLogEntry }

/-- **C4** — `close_full_position` computes the side-correct quote profit on
the full remaining amount, converts it at the configured conversion rate and
credits it to the balance, appends exactly one full (non-partial) record
carrying the balance-before/after snapshot and the given exit reason, and
clears the open position. -/
theorem claim_C4 (data : TradeData) (ot : OpenTrade) (price : ℚ) (reason : String)
    (hside : ot.type = "LONG" ∨ ot.type = "SHORT") :
    (close_full_position data ot price reason).2.balance =
      data.balance +
        (if ot.type = "LONG" then price - ot.entry_price else ot.entry_price - price) *
          ot.amount * BTC_USDT_RATE ∧
    (close_full_position data ot price reason).2.history =
      data.history ++ [(close_full_position data ot price reason).1] ∧
    (close_full_position data ot price reason).2.open_trade = none ∧
    (close_full_position data ot price reason).1.exit_reason = some reason ∧
    (close_full_position data ot price reason).1.exit_price = price ∧
    (close_full_position data ot price reason).1.amount = some ot.amount ∧
    (close_full_position data ot price reason).1.balance_before = some (round2 data.balance) ∧
    (close_full_position data ot price reason).1.balance_after =
      some (round2 ((close_full_position data ot price reason).2.balance)) ∧
    (close_full_position data ot price reason).1.part = false := by
  clear hside
  unfold close_full_position
  refine ⟨?_, rfl, rfl, rfl, rfl, rfl, rfl, rfl, rfl⟩
  by_cases h : ot.type = "LONG" <;> simp [h]

/-- Witness for C4 at a concrete LONG close and a concrete SHORT close. -/
theorem claim_C4_witness :
    ((egLong.type = "LONG" ∨ egLong.type = "SHORT") ∧
      (close_full_position egLongData egLong 101 "Stop-Loss Hit").2.balance =
        egLongData.balance +
          (if egLong.type = "LONG" then 101 - egLong.entry_price else egLong.entry_price - 101) *
            egLong.amount * BTC_USDT_RATE) ∧
    ((egShort.type = "LONG" ∨ egShort.type = "SHORT") ∧
      (close_full_position egShortData egShort 99 "Opposite Signal").1.exit_reason =
        some "Opposite Signal") :=
  ⟨⟨Or.inl rfl, (claim_C4 egLongData egLong 101 "Stop-Loss Hit" (Or.inl rfl)).1⟩,
   ⟨Or.inr rfl, (claim_C4 egShortData egShort 99 "Opposite Signal" (Or.inr rfl)).2.2.2.1⟩⟩

/-- A position whose single ladder level is configured to close 150% of the
original amount: the source applies it unconditionally. -/
def cexOverTrade : OpenTrade :=
  { type := "LONG", entry_price := 100, amount := 1, original_amount := 1,
    stop_loss := 90, tp_levels := [⟨"TP1", 101, 150, false⟩],
    strategy := "UT Bot #2 (KV=2, ATR=300)", atr_at_entry := 1,
    breakeven_moved := false }

/-- **C2 counterexample** — with an overshooting close percentage (150% of
`original_amount` against a remaining amount of 1), `partial_close_position`
neither rejects nor clamps nor raises: it silently drives the position amount
negative and still credits the balance and appends the partial record. -/
theorem claim_C2_cex :
    ((part_close_position specPolicy egFlatData cexOverTrade 101 101 150 0).2.2).amount < 0 ∧
    ((part_close_position specPolicy egFlatData cexOverTrade 101 101 150 0).2.1).balance ≠
      egFlatData.balance ∧
    ((part_close_position specPolicy egFlatData cexOverTrade 101 101 150 0).2.1).history.length = 1 := by
  refine ⟨?_, ?_, ?_⟩ <;>
    norm_num [part_close_position, markHit, cexOverTrade, egFlatData, specPolicy, BTC_USDT_RATE]

/-- **C3 counterexample** — a tick with signal `"frobnicate"` (capitalized:
not one of Buy/Sell/Hold) and negative price and ATR is not rejected: the
call completes without any error and still mutates the store by appending a
log entry (which is then persisted). -/
theorem claim_C3_cex :
    (update_demo_trade specPolicy "frobnicate" (-5) (-1) 0 egFlatData).2.2.2.order_log.length = 1 ∧
    pyCapitalize "frobnicate" ≠ "Buy" ∧
    pyCapitalize "frobnicate" ≠ "Sell" ∧
    pyCapitalize "frobnicate" ≠ "Hold" := by
  decide

/-- An empty-history store whose balance differs from `START_BALANCE`. -/
def egEmptyHist : TradeData :=
  { balance := 10500, open_trade := none, history := [], order_log := [],
    last_signal := none }

/-- **C9 counterexample** — on an empty history `get_performance_summary`
returns the reduced dict without `current_balance`, `starting_balance` or
`total_return`, so it does not return
`total_return = current_balance − starting_balance` for every history. -/
theorem claim_C9_cex :
    (get_performance_summary egEmptyHist).total_return = none ∧
    (get_performance_summary egEmptyHist).current_balance = none ∧
    (get_performance_summary egEmptyHist).starting_balance = none ∧
    egEmptyHist.history = [] := by
  decide

/-- The stop-hit condition of the spec: a stop is present (truthy) and price
has crossed it on the loss side for the position's direction. -/
abbrev slCond (ot : OpenTrade) (price : ℚ) : Prop :=
  ot.stop_loss ≠ 0 ∧
    ((ot.type = "LONG" ∧ price ≤ ot.stop_loss) ∨ (ot.type = "SHORT" ∧ ot.stop_loss ≤ price))

/-- A take-profit level's price has been crossed for the side. -/
abbrev crossed (ty : String) (price : ℚ) (tp : TPLevel) : Prop :=
  (ty = "LONG" ∧ tp.price ≤ price) ∨ (ty = "SHORT" ∧ price ≤ tp.price)

lemma findTpHit_ne_slHit (ty : String) (price : ℚ) :
    ∀ (ls : List TPLevel) (k : ℕ) (p : ℚ), findTpHit ty price ls k ≠ CheckResult.slHit p := by
  intro ls
  induction ls with
  | nil => intro k p h; simp [findTpHit] at h
  | cons tp rest ih =>
    intro k p h
    simp only [findTpHit] at h
    split_ifs at h
    all_goals exact ih _ _ h

lemma findTpHit_spec (ty : String) (price : ℚ) :
    ∀ (ls : List TPLevel) (k : ℕ) (n : String) (tpp tppct : ℚ) (tpi : ℕ),
      findTpHit ty price ls k = CheckResult.tpHit n tpp tppct tpi →
      ∃ i, tpi = k + i ∧ ∃ tp, ls.get? i = some tp ∧ tp.hit = false ∧
        crossed ty price tp ∧ n = tp.name ∧ tpp = tp.price ∧ tppct = tp.percentage ∧
        ∀ j, j < i → ∀ u, ls.get? j = some u → u.hit = true ∨ ¬ crossed ty price u := by
  intro ls
  induction ls with
  | nil => intro k n tpp tppct tpi h; simp [findTpHit] at h
  | cons tp rest ih =>
    intro k n tpp tppct tpi h
    simp only [findTpHit] at h
    split_ifs at h with h1 h2 h3
    · obtain ⟨i, hi, tq, hget, hhit, hcr, hn, hp, hpc, hpre⟩ := ih (k + 1) n tpp tppct tpi h
      refine ⟨i + 1, by omega, tq, by simpa using hget, hhit, hcr, hn, hp, hpc, ?_⟩
      intro j hj u hu
      cases j with
      | zero =>
        have hu' : tp = u := by simpa using hu
        subst hu'
        exact Or.inl h1
      | succ j' => exact hpre j' (by omega) u (by simpa using hu)
    · injection h with hn hp hpc hk
      refine ⟨0, by omega, tp, by simp, by simpa using h1, Or.inl h2,
        hn.symm, hp.symm, hpc.symm, ?_⟩
      intro j hj
      omega
    · injection h with hn hp hpc hk
      refine ⟨0, by omega, tp, by simp, by simpa using h1, Or.inr h3,
        hn.symm, hp.symm, hpc.symm, ?_⟩
      intro j hj
      omega
    · obtain ⟨i, hi, tq, hget, hhit, hcr, hn, hp, hpc, hpre⟩ := ih (k + 1) n tpp tppct tpi h
      refine ⟨i + 1, by omega, tq, by simpa using hget, hhit, hcr, hn, hp, hpc, ?_⟩
      intro j hj u hu
      cases j with
      | zero =>
        have hu' : tp = u := by simpa using hu
        subst hu'
        right
        intro hc
        rcases hc with ⟨hty, hle⟩ | ⟨hty, hle⟩
        · exact h2 ⟨hty, hle⟩
        · exact h3 ⟨hty, hle⟩
      | succ j' => exact hpre j' (by omega) u (by simpa using hu)

lemma check_slHit_of_slCond (ot : OpenTrade) (price : ℚ) (h : slCond ot price) :
    check_tp_sl_hits (some ot) price = CheckResult.slHit ot.stop_loss := by
  obtain ⟨hs, hcase⟩ := h
  rcases hcase with ⟨hty, hp⟩ | ⟨hty, hp⟩
  · simp [check_tp_sl_hits, hs, hty, hp]
  · have hne : ot.type ≠ "LONG" := by rw [hty]; decide
    simp [check_tp_sl_hits, hs, hty, hp, hne]

lemma slCond_of_check_slHit (ot : OpenTrade) (price : ℚ) (p : ℚ)
    (h : check_tp_sl_hits (some ot) price = CheckResult.slHit p) :
    slCond ot price ∧ p = ot.stop_loss := by
  simp only [check_tp_sl_hits] at h
  split_ifs at h with h1 h2
  · obtain ⟨hs, hty, hp⟩ := h1
    injection h with hp'
    exact ⟨⟨hs, Or.inl ⟨hty, hp⟩⟩, hp'.symm⟩
  · obtain ⟨hs, hty, hp⟩ := h2
    injection h with hp'
    exact ⟨⟨hs, Or.inr ⟨hty, hp⟩⟩, hp'.symm⟩
  · exact absurd h (findTpHit_ne_slHit ot.type price ot.tp_levels 0 p)

lemma check_tpHit_elim (ot : OpenTrade) (price : ℚ) (n : String)
    (tpp tppct : ℚ) (tpi : ℕ)
    (h : check_tp_sl_hits (some ot) price = CheckResult.tpHit n tpp tppct tpi) :
    ¬ slCond ot price ∧ ∃ tp, ot.tp_levels.get? tpi = some tp ∧ tp.hit = false ∧
      crossed ot.type price tp ∧ n = tp.name ∧ tpp = tp.price ∧ tppct = tp.percentage ∧
      ∀ j, j < tpi → ∀ u, ot.tp_levels.get? j = some u →
        u.hit = true ∨ ¬ crossed ot.type price u := by
  simp only [check_tp_sl_hits] at h
  split_ifs at h with h1 h2
  refine ⟨?_, ?_⟩
  · intro hsl
    obtain ⟨hs, hcase⟩ := hsl
    rcases hcase with ⟨hty, hp⟩ | ⟨hty, hp⟩
    · exact h1 ⟨hs, hty, hp⟩
    · exact h2 ⟨hs, hty, hp⟩
  · obtain ⟨i, hi, rest⟩ := findTpHit_spec ot.type price ot.tp_levels 0 n tpp tppct tpi h
    have hi' : tpi = i := by omega
    subst hi'
    exact rest

lemma step1_eq_slClose (rp : RiskPolicy) (price atr_value : ℚ) (s : TickState)
    (ot : OpenTrade) (hso : s.open_trade = some ot) (h : slCond ot price) :
    step1 rp price atr_value s = slClose price s ot := by
  simp only [step1, hso, check_slHit_of_slCond ot price h]

lemma step1_eq_trailing (rp : RiskPolicy) (price atr_value : ℚ) (s : TickState)
    (ot : OpenTrade) (hso : s.open_trade = some ot)
    (h : check_tp_sl_hits (some ot) price = CheckResult.noHit) :
    step1 rp price atr_value s = trailingStep rp price atr_value s ot := by
  simp only [step1, hso, h]

lemma trailingStep_spec (rp : RiskPolicy) (price atr_value : ℚ) (s : TickState)
    (ot : OpenTrade) :
    (trailingStep rp price atr_value s ot).data = s.data ∧
    (trailingStep rp price atr_value s ot).last_closed_trade = s.last_closed_trade ∧
    ((trailingStep rp price atr_value s ot).open_trade = s.open_trade ∨
      ∃ ns, (trailingStep rp price atr_value s ot).open_trade =
        some { ot with stop_loss := ns }) := by
  unfold trailingStep
  split_ifs with hc
  · cases hns : rp.update_trailing_stop price ot.type ot.stop_loss atr_value with
    | none => exact ⟨rfl, rfl, Or.inl rfl⟩
    | some ns =>
      dsimp only
      split_ifs with hz
      · exact ⟨rfl, rfl, Or.inr ⟨ns, rfl⟩⟩
      · exact ⟨rfl, rfl, Or.inl rfl⟩
  · exact ⟨rfl, rfl, Or.inl rfl⟩

/-- **C1** — exit detection is stop-first and mutually exclusive: (1) whenever
the stop-hit condition holds (truthy stop, price at or beyond it on the loss
side for the position's direction) `check_tp_sl_hits` reports the stop,
regardless of the take-profit ladder; (2) it reports a stop only when that
condition holds; (3) a take-profit report implies the stop-hit condition
fails, and designates exactly the first un-hit level (in index order) whose
price is crossed for the side; (4) under the stop-hit condition, step 1 of a
tick fully closes the position with reason `"Stop-Loss Hit"`; (5) when the
check reports no hit, step 1 leaves the store untouched and at most updates
the trailing stop (trailing-update or no-op) — so per tick exactly one of
stop-hit, TP-hit, trailing-update, no-op occurs. -/
theorem claim_C1 :
    (∀ (ot : OpenTrade) (price : ℚ),
      slCond ot price → check_tp_sl_hits (some ot) price = CheckResult.slHit ot.stop_loss) ∧
    (∀ (ot : OpenTrade) (price p : ℚ),
      check_tp_sl_hits (some ot) price = CheckResult.slHit p →
      slCond ot price ∧ p = ot.stop_loss) ∧
    (∀ (ot : OpenTrade) (price : ℚ) (n : String) (tpp tppct : ℚ) (tpi : ℕ),
      check_tp_sl_hits (some ot) price = CheckResult.tpHit n tpp tppct tpi →
      ¬ slCond ot price ∧ ∃ tp, ot.tp_levels.get? tpi = some tp ∧ tp.hit = false ∧
        crossed ot.type price tp ∧ n = tp.name ∧ tpp = tp.price ∧ tppct = tp.percentage ∧
        ∀ j, j < tpi → ∀ u, ot.tp_levels.get? j = some u →
          u.hit = true ∨ ¬ crossed ot.type price u) ∧
    (∀ (rp : RiskPolicy) (price atr_value : ℚ) (s : TickState) (ot : OpenTrade),
      s.open_trade = some ot → slCond ot price →
      (step1 rp price atr_value s).open_trade = none ∧
      (step1 rp price atr_value s).data.history =
        s.data.history ++ [(close_full_position s.data ot price "Stop-Loss Hit").1] ∧
      (close_full_position s.data ot price "Stop-Loss Hit").1.exit_reason =
        some "Stop-Loss Hit" ∧
      (close_full_position s.data ot price "Stop-Loss Hit").1.part = false ∧
      (step1 rp price atr_value s).last_closed_trade =
        some (close_full_position s.data ot price "Stop-Loss Hit").1) ∧
    (∀ (rp : RiskPolicy) (price atr_value : ℚ) (s : TickState) (ot : OpenTrade),
      s.open_trade = some ot → check_tp_sl_hits (some ot) price = CheckResult.noHit →
      (step1 rp price atr_value s).data = s.data ∧
      ((step1 rp price atr_value s).open_trade = some ot ∨
        ∃ ns, (step1 rp price atr_value s).open_trade =
          some { ot with stop_loss := ns })) := by
  refine ⟨check_slHit_of_slCond, slCond_of_check_slHit, check_tpHit_elim, ?_, ?_⟩
  · intro rp price atr_value s ot hso h
    rw [step1_eq_slClose rp price atr_value s ot hso h]
    unfold slClose close_full_position
    exact ⟨rfl, rfl, rfl, rfl, rfl⟩
  · intro rp price atr_value s ot hso h
    rw [step1_eq_trailing rp price atr_value s ot hso h]
    obtain ⟨hd, _hl, ho⟩ := trailingStep_spec rp price atr_value s ot
    refine ⟨hd, ?_⟩
    rcases ho with h1 | ⟨ns, h1⟩
    · exact Or.inl (h1.trans hso)
    · exact Or.inr ⟨ns, h1⟩

/-- Witness for C1: a LONG at 94 under a 95 stop trips the stop check and
step 1 closes it; a SHORT at 106 over a 105 stop trips it; at 101 the LONG
reports `TP1`; at 100 it reports no hit and step 1 leaves the store as is. -/
theorem claim_C1_witness :
    (slCond egLong 94 ∧
      check_tp_sl_hits (some egLong) 94 = CheckResult.slHit egLong.stop_loss) ∧
    (check_tp_sl_hits (some egShort) 106 = CheckResult.slHit 105 ∧ slCond egShort 106) ∧
    (check_tp_sl_hits (some egLong) 101 = CheckResult.tpHit "TP1" 101 50 0 ∧
      ¬ slCond egLong 101) ∧
    (egLongState.open_trade = some egLong ∧
      (step1 specPolicy 94 1 egLongState).open_trade = none) ∧
    (check_tp_sl_hits (some egLong) 100 = CheckResult.noHit ∧
      (step1 specPolicy 100 1 egLongState).data = egLongState.data) := by
  have h94 : slCond egLong 94 :=
    ⟨by norm_num [egLong], Or.inl ⟨rfl, by norm_num [egLong]⟩⟩
  have hchk2 : check_tp_sl_hits (some egShort) 106 = CheckResult.slHit 105 := by
    norm_num [check_tp_sl_hits, findTpHit, egShort]
  have hls : ("LONG" : String) ≠ "SHORT" := by decide
  have hchk3 : check_tp_sl_hits (some egLong) 101 = CheckResult.tpHit "TP1" 101 50 0 := by
    norm_num [check_tp_sl_hits, findTpHit, egLong, hls]
  have hno : check_tp_sl_hits (some egLong) 100 = CheckResult.noHit := by
    norm_num [check_tp_sl_hits, findTpHit, egLong, hls]
  exact ⟨⟨h94, claim_C1.1 egLong 94 h94⟩,
    ⟨hchk2, (claim_C1.2.1 egShort 106 105 hchk2).1⟩,
    ⟨hchk3, (claim_C1.2.2.1 egLong 101 "TP1" 101 50 0 hchk3).1⟩,
    ⟨rfl, (claim_C1.2.2.2.1 specPolicy 94 1 egLongState egLong rfl h94).1⟩,
    ⟨hno, (claim_C1.2.2.2.2 specPolicy 100 1 egLongState egLong rfl hno).1⟩⟩

/-- **C6** — while already LONG (resp. SHORT) and with the risk gate open, a
`Buy` (resp. `Sell`) signal is idempotent in the signal-handling step: the
store (balance, history, position, last-closed) is left exactly as it was and
the only effect is the IGNORED action tag with its message. -/
theorem claim_C6 (rp : RiskPolicy) (price atr_value utbot_stop : ℚ)
    (s : TickState) (ot : OpenTrade)
    (hso : s.open_trade = some ot)
    (hallow : (rp.can_open_trade s.data.balance).1 = true) :
    (ot.type = "LONG" →
      signal_step rp "Buy" price atr_value utbot_stop s =
        { s with
          action_message := "Ignoring repeated Buy signal. Already in LONG position."
          log_entry := { s.log_entry with action := some "IGNORED" } }) ∧
    (ot.type = "SHORT" →
      signal_step rp "Sell" price atr_value utbot_stop s =
        { s with
          action_message := "Ignoring repeated Sell signal. Already in SHORT position."
          log_entry := { s.log_entry with action := some "IGNORED" } }) := by
  constructor
  · intro hty
    simp [signal_step, hso, hallow, hty,
      (by decide : ¬("Buy" : String) = "Hold")]
  · intro hty
    simp [signal_step, hso, hallow, hty,
      (by decide : ¬("Sell" : String) = "Hold"),
      (by decide : ¬("Sell" : String) = "Buy")]

/-- Witness for C6: a repeated `Buy` while LONG and a repeated `Sell` while
SHORT leave the concrete states untouched apart from the IGNORED tag. -/
theorem claim_C6_witness :
    (egLongState.open_trade = some egLong ∧
      (specPolicy.can_open_trade egLongState.data.balance).1 = true ∧
      signal_step specPolicy "Buy" 100 1 0 egLongState =
        { egLongState with
          action_message := "Ignoring repeated Buy signal. Already in LONG position."
          log_entry := { egLongState.log_entry with action := some "IGNORED" } }) ∧
    (egShortState.open_trade = some egShort ∧
      signal_step specPolicy "Sell" 100 1 0 egShortState =
        { egShortState with
          action_message := "Ignoring repeated Sell signal. Already in SHORT position."
          log_entry := { egShortState.log_entry with action := some "IGNORED" } }) := by
  have hallowL : (specPolicy.can_open_trade egLongState.data.balance).1 = true := by
    norm_num [specPolicy, egLongState, egLongData, egFlatData]
  have hallowS : (specPolicy.can_open_trade egShortState.data.balance).1 = true := by
    norm_num [specPolicy, egShortState, egShortData, egFlatData]
  exact ⟨⟨rfl, hallowL, (claim_C6 specPolicy 100 1 0 egLongState egLong rfl hallowL).1 rfl⟩,
    ⟨rfl, (claim_C6 specPolicy 100 1 0 egShortState egShort rfl hallowS).2 rfl⟩⟩

/-- **C7** — a `Buy` while SHORT (resp. `Sell` while LONG) with the risk gate
open first fully closes the position with reason `"Opposite Signal"` at the
tick price, then opens the opposite position in the same step: the new
position's entry price is the same tick price that served as the close's exit
price, its amount equals its original amount and both come from the Risk
Policy sizing on the post-close balance, its stop and ladder come from the
Risk Policy, and `breakeven_moved` starts false. -/
theorem claim_C7 (rp : RiskPolicy) (price atr_value utbot_stop : ℚ)
    (s : TickState) (ot : OpenTrade)
    (hso : s.open_trade = some ot)
    (hallow : (rp.can_open_trade s.data.balance).1 = true) :
    (ot.type = "SHORT" →
      (signal_step rp "Buy" price atr_value utbot_stop s).last_closed_trade =
        some (close_full_position s.data ot price "Opposite Signal").1 ∧
      (close_full_position s.data ot price "Opposite Signal").1.exit_reason =
        some "Opposite Signal" ∧
      (close_full_position s.data ot price "Opposite Signal").1.exit_price = price ∧
      (close_full_position s.data ot price "Opposite Signal").1.amount = some ot.amount ∧
      (signal_step rp "Buy" price atr_value utbot_stop s).data.history =
        s.data.history ++ [(close_full_position s.data ot price "Opposite Signal").1] ∧
      (signal_step rp "Buy" price atr_value utbot_stop s).data.balance =
        (close_full_position s.data ot price "Opposite Signal").2.balance ∧
      (signal_step rp "Buy" price atr_value utbot_stop s).data.last_signal = some "Buy" ∧
      (signal_step rp "Buy" price atr_value utbot_stop s).open_trade = some
        { type := "LONG", entry_price := price,
          amount := rp.calculate_position_size
            (close_full_position s.data ot price "Opposite Signal").2.balance,
          original_amount := rp.calculate_position_size
            (close_full_position s.data ot price "Opposite Signal").2.balance,
          stop_loss := rp.calculate_stop_loss price "LONG" atr_value utbot_stop,
          tp_levels := rp.calculate_take_profit_levels price "LONG" atr_value,
          strategy := "UT Bot #2 (KV=2, ATR=300)", atr_at_entry := atr_value,
          breakeven_moved := false }) ∧
    (ot.type = "LONG" →
      (signal_step rp "Sell" price atr_value utbot_stop s).last_closed_trade =
        some (close_full_position s.data ot price "Opposite Signal").1 ∧
      (close_full_position s.data ot price "Opposite Signal").1.exit_reason =
        some "Opposite Signal" ∧
      (close_full_position s.data ot price "Opposite Signal").1.exit_price = price ∧
      (close_full_position s.data ot price "Opposite Signal").1.amount = some ot.amount ∧
      (signal_step rp "Sell" price atr_value utbot_stop s).data.history =
        s.data.history ++ [(close_full_position s.data ot price "Opposite Signal").1] ∧
      (signal_step rp "Sell" price atr_value utbot_stop s).data.balance =
        (close_full_position s.data ot price "Opposite Signal").2.balance ∧
      (signal_step rp "Sell" price atr_value utbot_stop s).data.last_signal = some "Sell" ∧
      (signal_step rp "Sell" price atr_value utbot_stop s).open_trade = some
        { type := "SHORT", entry_price := price,
          amount := rp.calculate_position_size
            (close_full_position s.data ot price "Opposite Signal").2.balance,
          original_amount := rp.calculate_position_size
            (close_full_position s.data ot price "Opposite Signal").2.balance,
          stop_loss := rp.calculate_stop_loss price "SHORT" atr_value utbot_stop,
          tp_levels := rp.calculate_take_profit_levels price "SHORT" atr_value,
          strategy := "UT Bot #1 (KV=2, ATR=1)", atr_at_entry := atr_value,
          breakeven_moved := false }) := by
  constructor
  · intro hty
    simp [signal_step, buyOpen, close_full_position, hso, hallow, hty,
      (by decide : ¬("Buy" : String) = "Hold"),
      (by decide : ¬("SHORT" : String) = "LONG")]
  · intro hty
    simp [signal_step, sellOpen, close_full_position, hso, hallow, hty,
      (by decide : ¬("Sell" : String) = "Hold"),
      (by decide : ¬("Sell" : String) = "Buy"),
      (by decide : ¬("LONG" : String) = "SHORT")]

/-- Witness for C7: a concrete `Buy` while SHORT and `Sell` while LONG. -/
theorem claim_C7_witness :
    (egShortState.open_trade = some egShort ∧
      (specPolicy.can_open_trade egShortState.data.balance).1 = true ∧
      egShort.type = "SHORT" ∧
      (signal_step specPolicy "Buy" 100 1 0 egShortState).last_closed_trade =
        some (close_full_position egShortState.data egShort 100 "Opposite Signal").1 ∧
      (signal_step specPolicy "Buy" 100 1 0 egShortState).data.last_signal = some "Buy") ∧
    (egLongState.open_trade = some egLong ∧ egLong.type = "LONG" ∧
      (signal_step specPolicy "Sell" 100 1 0 egLongState).data.last_signal = some "Sell") := by
  have hS : (specPolicy.can_open_trade egShortState.data.balance).1 = true := by
    norm_num [specPolicy, egShortState, egShortData, egFlatData]
  have hL : (specPolicy.can_open_trade egLongState.data.balance).1 = true := by
    norm_num [specPolicy, egLongState, egLongData, egFlatData]
  refine ⟨⟨rfl, hS, rfl, ?_, ?_⟩, rfl, rfl, ?_⟩
  · exact ((claim_C7 specPolicy 100 1 0 egShortState egShort rfl hS).1 rfl).1
  · exact ((claim_C7 specPolicy 100 1 0 egShortState egShort rfl hS).1 rfl).2.2.2.2.2.2.1
  · exact ((claim_C7 specPolicy 100 1 0 egLongState egLong rfl hL).2 rfl).2.2.2.2.2.2.1

/-- Sum of `close_percentage` over a ladder. -/
def sumPct : List TPLevel → ℚ
  | [] => 0
  | tp :: rest => tp.percentage + sumPct rest

/-- Sum of `close_percentage` over the already-hit levels of a ladder. -/
def sumHitPct : List TPLevel → ℚ
  | [] => 0
  | tp :: rest => (if tp.hit then tp.percentage else 0) + sumHitPct rest

lemma sumHitPct_nonneg (ls : List TPLevel) (hpos : ∀ u ∈ ls, 0 ≤ u.percentage) :
    0 ≤ sumHitPct ls := by
  induction ls with
  | nil => simp [sumHitPct]
  | cons hd rest ih =>
    have h1 := hpos hd (by simp)
    have h2 := ih (fun u hu => hpos u (by simp [hu]))
    simp only [sumHitPct]
    split_ifs <;> linarith

lemma sumHitPct_le_sumPct (ls : List TPLevel) (hpos : ∀ u ∈ ls, 0 ≤ u.percentage) :
    sumHitPct ls ≤ sumPct ls := by
  induction ls with
  | nil => simp [sumHitPct, sumPct]
  | cons hd rest ih =>
    have h1 := hpos hd (by simp)
    have h2 := ih (fun u hu => hpos u (by simp [hu]))
    simp only [sumHitPct, sumPct]
    split_ifs <;> linarith

lemma sumHitPct_markHit (ls : List TPLevel) :
    ∀ (i : ℕ) (tp : TPLevel), ls.get? i = some tp → tp.hit = false →
      sumHitPct (markHit ls i) = sumHitPct ls + tp.percentage := by
  induction ls with
  | nil => intro i tp h _; simp at h
  | cons hd rest ih =>
    intro i tp hget hhit
    cases i with
    | zero =>
      have hh : hd = tp := by simpa using hget
      subst hh
      simp [markHit, sumHitPct, hhit]
      ring
    | succ j =>
      have hg : rest.get? j = some tp := by simpa using hget
      simp [markHit, sumHitPct, ih j tp hg hhit]
      ring

lemma sumHitPct_add_le (ls : List TPLevel) :
    ∀ (i : ℕ) (tp : TPLevel), ls.get? i = some tp → tp.hit = false →
      (∀ u ∈ ls, 0 ≤ u.percentage) →
      sumHitPct ls + tp.percentage ≤ sumPct ls := by
  induction ls with
  | nil => intro i tp h _ _; simp at h
  | cons hd rest ih =>
    intro i tp hget hhit hpos
    have hposr : ∀ u ∈ rest, 0 ≤ u.percentage := fun u hu => hpos u (by simp [hu])
    have hhd : 0 ≤ hd.percentage := hpos hd (by simp)
    have hsumr : sumHitPct rest ≤ sumPct rest := sumHitPct_le_sumPct rest hposr
    cases i with
    | zero =>
      have hh : hd = tp := by simpa using hget
      subst hh
      simp only [sumHitPct, sumPct, hhit, Bool.false_eq_true, if_false]
      linarith
    | succ j =>
      have hg : rest.get? j = some tp := by simpa using hget
      have hr := ih j tp hg hhit hposr
      simp only [sumHitPct, sumPct]
      split_ifs <;> linarith

lemma part_close_ot (rp : RiskPolicy) (data : TradeData) (ot : OpenTrade)
    (price tpp tppct : ℚ) (tpi : ℕ) :
    ((part_close_position rp data ot price tpp tppct tpi).2.2).amount =
      ot.amount - ot.original_amount * (tppct / 100) ∧
    ((part_close_position rp data ot price tpp tppct tpi).2.2).original_amount =
      ot.original_amount ∧
    ((part_close_position rp data ot price tpp tppct tpi).2.2).tp_levels =
      markHit ot.tp_levels tpi ∧
    (part_close_position rp data ot price tpp tppct tpi).1.amount_closed =
      some (round6 (ot.original_amount * (tppct / 100))) ∧
    (part_close_position rp data ot price tpp tppct tpi).2.1.history =
      data.history ++ [(part_close_position rp data ot price tpp tppct tpi).1] ∧
    (tpi = 0 ∧ ot.stop_loss ≠ 0 →
      ((part_close_position rp data ot price tpp tppct tpi).2.2).stop_loss =
        rp.move_stop_to_breakeven ot.entry_price ot.type ∧
      ((part_close_position rp data ot price tpp tppct tpi).2.2).breakeven_moved = true) := by
  by_cases hb : tpi = 0 ∧ ot.stop_loss ≠ 0 <;>
    simp [part_close_position, hb]

/-- **C2 (amended)** — `partial_close_position` has no overshoot guard, but
under the configured ladder invariant (all percentages nonnegative, total at
most 100, the closed level not yet hit, and the amount consistent with the
already-hit percentages) the remaining amount never goes below zero. -/
theorem claim_C2_amended (rp : RiskPolicy) (data : TradeData) (ot : OpenTrade)
    (price tpp tppct : ℚ) (tpi : ℕ) (tp : TPLevel)
    (hget : ot.tp_levels.get? tpi = some tp)
    (hhit : tp.hit = false)
    (hpct : tppct = tp.percentage)
    (hpos : ∀ u ∈ ot.tp_levels, 0 ≤ u.percentage)
    (hsum : sumPct ot.tp_levels ≤ 100)
    (hinv : ot.amount = ot.original_amount * ((100 - sumHitPct ot.tp_levels) / 100))
    (horig : 0 ≤ ot.original_amount) :
    0 ≤ ((part_close_position rp data ot price tpp tppct tpi).2.2).amount := by
  have hadd : sumHitPct ot.tp_levels + tp.percentage ≤ sumPct ot.tp_levels :=
    sumHitPct_add_le ot.tp_levels tpi tp hget hhit hpos
  have hamount := (part_close_ot rp data ot price tpp tppct tpi).1
  rw [hamount, hinv, hpct]
  have hfold : ot.original_amount * ((100 - sumHitPct ot.tp_levels) / 100) -
      ot.original_amount * (tp.percentage / 100) =
      ot.original_amount * ((100 - (sumHitPct ot.tp_levels + tp.percentage)) / 100) := by
    ring
  rw [hfold]
  apply mul_nonneg horig
  apply div_nonneg _ (by norm_num)
  linarith

/-- Witness for the amended C2: closing TP1 (50% of original) on the concrete
LONG position leaves a nonnegative amount. -/
theorem claim_C2_amended_witness :
    egLong.tp_levels.get? 0 = some ⟨"TP1", 101, 50, false⟩ ∧
    (∀ u ∈ egLong.tp_levels, 0 ≤ u.percentage) ∧
    sumPct egLong.tp_levels ≤ 100 ∧
    egLong.amount = egLong.original_amount * ((100 - sumHitPct egLong.tp_levels) / 100) ∧
    0 ≤ ((part_close_position specPolicy egLongData egLong 101 101 50 0).2.2).amount := by
  have hget : egLong.tp_levels.get? 0 = some ⟨"TP1", 101, 50, false⟩ := rfl
  have hpos : ∀ u ∈ egLong.tp_levels, 0 ≤ u.percentage := by
    intro u hu
    simp only [egLong, List.mem_cons, List.mem_singleton] at hu
    rcases hu with h | h | h
    · rw [h]; norm_num
    · rw [h]; norm_num
    · simp at h
  have hsum : sumPct egLong.tp_levels ≤ 100 := by
    norm_num [egLong, sumPct]
  have hinv : egLong.amount = egLong.original_amount * ((100 - sumHitPct egLong.tp_levels) / 100) := by
    norm_num [egLong, sumHitPct]
  exact ⟨hget, hpos, hsum, hinv,
    claim_C2_amended specPolicy egLongData egLong 101 101 50 0 ⟨"TP1", 101, 50, false⟩
      hget rfl rfl hpos hsum hinv (by norm_num [egLong])⟩

/-- **C8** — position-size conservation under the configured ladder
invariant: a partial close never increases the amount; the amount removed is
exactly `original_amount * percentage/100`, so the hit-percentage invariant
`amount = original_amount * (100 − Σ hit pct)/100` is preserved; the amount
stays in `[0, original_amount]`, and is strictly positive while the hit
percentages stay below 100; remaining amount plus everything partially
closed so far equals `original_amount`, and a full close closes exactly the
remaining amount — so no position size is created or destroyed. -/
theorem claim_C8 (rp : RiskPolicy) (data : TradeData) (ot : OpenTrade)
    (price tpp tppct : ℚ) (tpi : ℕ) (tp : TPLevel) (reason : String)
    (hget : ot.tp_levels.get? tpi = some tp)
    (hhit : tp.hit = false)
    (hpct : tppct = tp.percentage)
    (hpos : ∀ u ∈ ot.tp_levels, 0 ≤ u.percentage)
    (hsum : sumPct ot.tp_levels ≤ 100)
    (hinv : ot.amount = ot.original_amount * ((100 - sumHitPct ot.tp_levels) / 100))
    (horig : 0 < ot.original_amount) :
    ((part_close_position rp data ot price tpp tppct tpi).2.2).amount ≤ ot.amount ∧
    ((part_close_position rp data ot price tpp tppct tpi).2.2).amount +
      ot.original_amount * (tppct / 100) = ot.amount ∧
    ((part_close_position rp data ot price tpp tppct tpi).2.2).amount =
      ((part_close_position rp data ot price tpp tppct tpi).2.2).original_amount *
        ((100 - sumHitPct ((part_close_position rp data ot price tpp tppct tpi).2.2).tp_levels) / 100) ∧
    0 ≤ ((part_close_position rp data ot price tpp tppct tpi).2.2).amount ∧
    ((part_close_position rp data ot price tpp tppct tpi).2.2).amount ≤ ot.original_amount ∧
    (sumHitPct ((part_close_position rp data ot price tpp tppct tpi).2.2).tp_levels < 100 →
      0 < ((part_close_position rp data ot price tpp tppct tpi).2.2).amount) ∧
    ot.amount + ot.original_amount * (sumHitPct ot.tp_levels / 100) = ot.original_amount ∧
    (close_full_position data ot price reason).1.amount = some ot.amount := by
  obtain ⟨hamount, horg, hlv, _, _, _⟩ := part_close_ot rp data ot price tpp tppct tpi
  have htpmem : tp ∈ ot.tp_levels := List.get?_mem hget
  have hp0 : 0 ≤ tp.percentage := hpos tp htpmem
  have hS0 : 0 ≤ sumHitPct ot.tp_levels := sumHitPct_nonneg ot.tp_levels hpos
  have hadd : sumHitPct ot.tp_levels + tp.percentage ≤ sumPct ot.tp_levels :=
    sumHitPct_add_le ot.tp_levels tpi tp hget hhit hpos
  have hmark : sumHitPct (markHit ot.tp_levels tpi) =
      sumHitPct ot.tp_levels + tp.percentage :=
    sumHitPct_markHit ot.tp_levels tpi tp hget hhit
  have hclose0 : 0 ≤ ot.original_amount * (tppct / 100) := by
    apply mul_nonneg horig.le
    apply div_nonneg _ (by norm_num)
    rw [hpct]; exact hp0
  have hnew : ((part_close_position rp data ot price tpp tppct tpi).2.2).amount =
      ot.original_amount *
        ((100 - (sumHitPct ot.tp_levels + tp.percentage)) / 100) := by
    rw [hamount, hinv, hpct]; ring
  refine ⟨?_, ?_, ?_, ?_, ?_, ?_, ?_, rfl⟩
  · rw [hamount]; linarith
  · rw [hamount]; ring
  · rw [horg, hlv, hmark, hnew]
  · rw [hnew]
    apply mul_nonneg horig.le
    apply div_nonneg _ (by norm_num)
    linarith
  · rw [hnew]
    have hle1 : (100 - (sumHitPct ot.tp_levels + tp.percentage)) / 100 ≤ 1 := by
      rw [div_le_one (by norm_num : (0:ℚ) < 100)]
      linarith
    calc ot.original_amount * ((100 - (sumHitPct ot.tp_levels + tp.percentage)) / 100)
        ≤ ot.original_amount * 1 := by
          apply mul_le_mul_of_nonneg_left hle1 horig.le
      _ = ot.original_amount := mul_one _
  · intro hlt
    rw [hlv, hmark] at hlt
    rw [hnew]
    apply mul_pos horig
    apply div_pos _ (by norm_num)
    linarith
  · rw [hinv]; ring

/-- Witness for C8: concrete TP1 partial close of the example LONG. -/
theorem claim_C8_witness :
    egLong.tp_levels.get? 0 = some ⟨"TP1", 101, 50, false⟩ ∧
    sumPct egLong.tp_levels ≤ 100 ∧
    0 < egLong.original_amount ∧
    ((part_close_position specPolicy egLongData egLong 101 101 50 0).2.2).amount ≤ egLong.amount ∧
    ((part_close_position specPolicy egLongData egLong 101 101 50 0).2.2).amount +
      egLong.original_amount * (50 / 100) = egLong.amount ∧
    (close_full_position egLongData egLong 101 "All TPs Hit").1.amount = some egLong.amount := by
  have hget : egLong.tp_levels.get? 0 = some ⟨"TP1", 101, 50, false⟩ := rfl
  have hpos : ∀ u ∈ egLong.tp_levels, 0 ≤ u.percentage := by
    intro u hu
    simp only [egLong, List.mem_cons, List.mem_singleton] at hu
    rcases hu with h | h | h
    · rw [h]; norm_num
    · rw [h]; norm_num
    · simp at h
  have hsum : sumPct egLong.tp_levels ≤ 100 := by norm_num [egLong, sumPct]
  have hinv : egLong.amount =
      egLong.original_amount * ((100 - sumHitPct egLong.tp_levels) / 100) := by
    norm_num [egLong, sumHitPct]
  have horig : 0 < egLong.original_amount := by norm_num [egLong]
  have hc8 := claim_C8 specPolicy egLongData egLong 101 101 50 0 ⟨"TP1", 101, 50, false⟩
    "All TPs Hit" hget rfl rfl hpos hsum hinv horig
  exact ⟨hget, hsum, horig, hc8.1, hc8.2.1, hc8.2.2.2.2.2.2.2⟩

lemma step1_tp_branch (rp : RiskPolicy) (price atr_value : ℚ) (s : TickState)
    (ot : OpenTrade) (name : String) (tpp tppct : ℚ) (tpi : ℕ)
    (hso : s.open_trade = some ot)
    (hchk : check_tp_sl_hits (some ot) price = CheckResult.tpHit name tpp tppct tpi)
    (hname : ¬ name = "SL")
    (hstart : strStarts name "TP" = true) :
    step1 rp price atr_value s =
      (let pc := part_close_position rp s.data ot price tpp tppct tpi
       let s1 : TickState := { s with
          data := pc.2.1
          open_trade := some pc.2.2
          action_message := name ++ " HIT"
          log_entry := { s.log_entry with
            action := some (name ++ "_HIT"), pl_inr := some pc.1.profit_inr } }
       if pc.2.2.tp_levels.filter (fun tp => !tp.hit) = [] then
         let fc := close_full_position s1.data pc.2.2 price "All TPs Hit"
         { s1 with
           data := fc.2
           open_trade := none
           action_message := s1.action_message ++ " | Closed remaining" }
       else s1) := by
  simp only [step1, hso, hchk]
  rw [if_neg hname, if_pos hstart]

/-- **C5** — on a take-profit hit the partial close removes the level's
percentage of `original_amount` (not of the remaining amount) and marks the
level hit; when the hit level has index 0 and a (truthy) stop exists, the
stop is moved to the Risk Policy's breakeven price and `breakeven_moved` is
set; when after the partial close every level is hit, step 1 immediately
full-closes the remainder in the same tick with reason `"All TPs Hit"`,
otherwise the reduced position stays open. -/
theorem claim_C5 (rp : RiskPolicy) (price atr_value : ℚ) (s : TickState)
    (ot : OpenTrade) (name : String) (tpp tppct : ℚ) (tpi : ℕ)
    (hso : s.open_trade = some ot)
    (hchk : check_tp_sl_hits (some ot) price = CheckResult.tpHit name tpp tppct tpi)
    (hname : ¬ name = "SL")
    (hstart : strStarts name "TP" = true) :
    ((part_close_position rp s.data ot price tpp tppct tpi).2.2).amount =
      ot.amount - ot.original_amount * (tppct / 100) ∧
    (part_close_position rp s.data ot price tpp tppct tpi).1.amount_closed =
      some (round6 (ot.original_amount * (tppct / 100))) ∧
    ((part_close_position rp s.data ot price tpp tppct tpi).2.2).tp_levels =
      markHit ot.tp_levels tpi ∧
    (tpi = 0 ∧ ot.stop_loss ≠ 0 →
      ((part_close_position rp s.data ot price tpp tppct tpi).2.2).stop_loss =
        rp.move_stop_to_breakeven ot.entry_price ot.type ∧
      ((part_close_position rp s.data ot price tpp tppct tpi).2.2).breakeven_moved = true) ∧
    (((part_close_position rp s.data ot price tpp tppct tpi).2.2).tp_levels.filter
        (fun tp => !tp.hit) = [] →
      (step1 rp price atr_value s).open_trade = none ∧
      (step1 rp price atr_value s).data.history = s.data.history ++
        [(part_close_position rp s.data ot price tpp tppct tpi).1,
         (close_full_position (part_close_position rp s.data ot price tpp tppct tpi).2.1
            ((part_close_position rp s.data ot price tpp tppct tpi).2.2) price
            "All TPs Hit").1] ∧
      (close_full_position (part_close_position rp s.data ot price tpp tppct tpi).2.1
          ((part_close_position rp s.data ot price tpp tppct tpi).2.2) price
          "All TPs Hit").1.exit_reason = some "All TPs Hit") ∧
    (((part_close_position rp s.data ot price tpp tppct tpi).2.2).tp_levels.filter
        (fun tp => !tp.hit) ≠ [] →
      (step1 rp price atr_value s).open_trade =
        some ((part_close_position rp s.data ot price tpp tppct tpi).2.2) ∧
      (step1 rp price atr_value s).data.history = s.data.history ++
        [(part_close_position rp s.data ot price tpp tppct tpi).1]) := by
  obtain ⟨hamount, _horg, hlv, hclosed, hhist, hbe⟩ :=
    part_close_ot rp s.data ot price tpp tppct tpi
  refine ⟨hamount, hclosed, hlv, hbe, ?_, ?_⟩
  · intro hrem
    rw [step1_tp_branch rp price atr_value s ot name tpp tppct tpi hso hchk hname hstart]
    dsimp only
    rw [if_pos hrem]
    refine ⟨rfl, ?_, rfl⟩
    show (close_full_position _ _ _ _).2.history = _
    simp [close_full_position, hhist]
  · intro hrem
    rw [step1_tp_branch rp price atr_value s ot name tpp tppct tpi hso hchk hname hstart]
    dsimp only
    rw [if_neg hrem]
    exact ⟨rfl, hhist⟩

/-- The example LONG after TP1: half the size, breakeven stop, TP1 hit. -/
def egLongHalf : OpenTrade :=
  { egLong with
    amount := 1/2000, stop_loss := 100, breakeven_moved := true,
    tp_levels := [⟨"TP1", 101, 50, true⟩, ⟨"TP2", 102, 50, false⟩] }

/-- Mid-tick state with `egLongHalf` open. -/
def egLongHalfState : TickState :=
  { data := { egFlatData with open_trade := some egLongHalf },
    open_trade := some egLongHalf, action_message := "",
    last_closed_trade := none, log_entry := egLogEntry }

/-- Witness for C5: TP1 at 101 partially closes and moves the stop to
breakeven while TP2 stays open; TP2 at 102 on the half position closes the
remainder in the same tick. -/
theorem claim_C5_witness :
    (check_tp_sl_hits (some egLong) 101 = CheckResult.tpHit "TP1" 101 50 0 ∧
      ((part_close_position specPolicy egLongData egLong 101 101 50 0).2.2).stop_loss =
        specPolicy.move_stop_to_breakeven egLong.entry_price egLong.type ∧
      ((part_close_position specPolicy egLongData egLong 101 101 50 0).2.2).breakeven_moved = true ∧
      (step1 specPolicy 101 1 egLongState).open_trade =
        some ((part_close_position specPolicy egLongData egLong 101 101 50 0).2.2)) ∧
    (check_tp_sl_hits (some egLongHalf) 102 = CheckResult.tpHit "TP2" 102 50 1 ∧
      (step1 specPolicy 102 1 egLongHalfState).open_trade = none) := by
  have hls : ("LONG" : String) ≠ "SHORT" := by decide
  have hchk1 : check_tp_sl_hits (some egLong) 101 = CheckResult.tpHit "TP1" 101 50 0 := by
    norm_num [check_tp_sl_hits, findTpHit, egLong, hls]
  have hchk2 : check_tp_sl_hits (some egLongHalf) 102 = CheckResult.tpHit "TP2" 102 50 1 := by
    norm_num [check_tp_sl_hits, findTpHit, egLongHalf, egLong, hls]
  have hc51 := claim_C5 specPolicy 101 1 egLongState egLong "TP1" 101 50 0 rfl hchk1
    (by decide) (by decide)
  have hc52 := claim_C5 specPolicy 102 1 egLongHalfState egLongHalf "TP2" 102 50 1 rfl hchk2
    (by decide) (by decide)
  have hbe := hc51.2.2.2.1 ⟨rfl, by norm_num [egLong]⟩
  have hrem1 : ((part_close_position specPolicy egLongData egLong 101 101 50 0).2.2).tp_levels.filter
      (fun tp => !tp.hit) ≠ [] := by
    norm_num [part_close_position, egLong, egLongData, egFlatData, markHit]
  have hrem2 : ((part_close_position specPolicy egLongHalfState.data egLongHalf 102 102 50 1).2.2).tp_levels.filter
      (fun tp => !tp.hit) = [] := by
    norm_num [part_close_position, egLongHalf, egLong, egFlatData, markHit]
  exact ⟨⟨hchk1, hbe.1, hbe.2, (hc51.2.2.2.2.2 hrem1).1⟩,
    ⟨hchk2, (hc52.2.2.2.2.1 hrem2).1⟩⟩

/-- **C3 (amended)** — a signal outside {Buy, Sell, Hold} (after
capitalization) is not rejected and raises no error: on a flat store the tick
leaves balance, history, position and `last_signal` unchanged, returns no
closed trade, but still appends an untagged log entry and persists the store;
price and ATR are never validated (here they may be negative). -/
theorem claim_C3_amended (rp : RiskPolicy) (signal : String)
    (price atr_value utbot_stop : ℚ) (data : TradeData)
    (hflat : data.open_trade = none)
    (hb : pyCapitalize signal ≠ "Buy")
    (hs : pyCapitalize signal ≠ "Sell")
    (hh : pyCapitalize signal ≠ "Hold") :
    (update_demo_trade rp signal price atr_value utbot_stop data).2.2.2 =
      { data with order_log := data.order_log ++
          [{ side := pyCapitalize signal, price := price, quantity := COINS_PER_TRADE,
             action := none, pl_inr := none, stop_loss := none,
             take_profits := none }] } ∧
    (update_demo_trade rp signal price atr_value utbot_stop data).2.1 = none ∧
    (update_demo_trade rp signal price atr_value utbot_stop data).2.2.2.balance =
      data.balance ∧
    (update_demo_trade rp signal price atr_value utbot_stop data).2.2.2.history =
      data.history ∧
    (update_demo_trade rp signal price atr_value utbot_stop data).2.2.2.open_trade =
      none := by
  refine ⟨?_, ?_, ?_, ?_, ?_⟩ <;>
    simp [update_demo_trade, step1, signal_step, hflat, hb, hs, hh]

/-- Witness for the amended C3: `"frobnicate"` at negative price/ATR on the
fresh store only appends the log entry. -/
theorem claim_C3_amended_witness :
    egFlatData.open_trade = none ∧
    pyCapitalize "frobnicate" ≠ "Buy" ∧
    (update_demo_trade specPolicy "frobnicate" (-5) (-1) 0 egFlatData).2.1 = none ∧
    (update_demo_trade specPolicy "frobnicate" (-5) (-1) 0 egFlatData).2.2.2.balance =
      egFlatData.balance := by
  have h := claim_C3_amended specPolicy "frobnicate" (-5) (-1) 0 egFlatData rfl
    (by decide) (by decide) (by decide)
  exact ⟨rfl, by decide, h.2.1, h.2.2.1⟩

lemma roundHalfEven_sub_intCast (q : ℚ) (n : ℤ) (hn : n % 2 = 0) :
    roundHalfEven (q - (n : ℚ)) = roundHalfEven q - n := by
  simp only [roundHalfEven]
  rw [Int.floor_sub_int]
  have hr : q - (n : ℚ) - ((⌊q⌋ - n : ℤ) : ℚ) = q - (⌊q⌋ : ℚ) := by
    push_cast; ring
  rw [hr]
  have hm : (⌊q⌋ - n) % 2 = ⌊q⌋ % 2 := by omega
  rw [hm]
  split_ifs <;> omega

lemma round2_sub_start (q : ℚ) :
    round2 (q - START_BALANCE) = round2 q - START_BALANCE := by
  simp only [round2, pyRound, START_BALANCE]
  have h1 : (q - 10000) * 10 ^ 2 = q * 10 ^ 2 - ((1000000 : ℤ) : ℚ) := by
    push_cast; ring
  rw [h1, roundHalfEven_sub_intCast _ 1000000 (by norm_num)]
  push_cast
  ring

/-- **C9 (amended)** — `get_performance_summary` classifies winners and
losers by the strict sign of the account-currency profit (zero is neither)
and computes `win_rate = winning/total*100` (rounded to two decimals); on an
empty history it returns the reduced summary with zero counters and
`win_rate = 0`, omitting the balance fields; on a non-empty history the
returned fields satisfy `total_return = current_balance − starting_balance`
exactly. -/
theorem claim_C9_amended (data : TradeData) :
    (data.history = [] →
      get_performance_summary data =
        { total_trades := 0, winning_trades := 0, losing_trades := 0,
          total_profit_inr := 0, win_rate := 0,
          current_balance := none, starting_balance := none, total_return := none }) ∧
    (data.history ≠ [] →
      (get_performance_summary data).winning_trades =
        (data.history.filter (fun t => 0 < t.profit_inr)).length ∧
      (get_performance_summary data).losing_trades =
        (data.history.filter (fun t => t.profit_inr < 0)).length ∧
      (get_performance_summary data).total_trades = data.history.length ∧
      (get_performance_summary data).win_rate =
        round2 ((((data.history.filter (fun t => 0 < t.profit_inr)).length : ℚ) /
          (data.history.length : ℚ)) * 100) ∧
      ∃ cb, (get_performance_summary data).current_balance = some cb ∧
        (get_performance_summary data).starting_balance = some START_BALANCE ∧
        (get_performance_summary data).total_return = some (cb - START_BALANCE)) := by
  constructor
  · intro h
    simp [get_performance_summary, h]
  · intro h
    have hlen : 0 < data.history.length := List.length_pos.mpr h
    refine ⟨?_, ?_, ?_, ?_, round2 data.balance, ?_, ?_, ?_⟩ <;>
      simp only [get_performance_summary] <;> rw [if_neg h] <;> dsimp only
    · rw [if_pos hlen]
    · rw [round2_sub_start]

/-- A winning full-close record for the non-empty-history witness. -/
def egRecOne : TradeRecord :=
  { type := "LONG", entry_price := 100, exit_price := 101,
    amount := some 1, amount_closed := none, profit_usdt := 1, profit_inr := 85,
    balance_before := some 10000, balance_after := some 10085,
    exit_reason := some "Stop-Loss Hit", tp_level := none, tp_name := none,
    tp_levels_hit := some [], part := false }

/-- A one-record non-empty history with a winning full close. -/
def egHistOne : TradeData :=
  { balance := 10085, open_trade := none, history := [egRecOne],
    order_log := [], last_signal := none }

/-- Witness for the amended C9: the empty history returns the reduced dict,
and the one-record history satisfies the exact total-return identity. -/
theorem claim_C9_amended_witness :
    (egEmptyHist.history = [] ∧
      get_performance_summary egEmptyHist =
        { total_trades := 0, winning_trades := 0, losing_trades := 0,
          total_profit_inr := 0, win_rate := 0,
          current_balance := none, starting_balance := none, total_return := none }) ∧
    (egHistOne.history ≠ [] ∧
      ∃ cb, (get_performance_summary egHistOne).current_balance = some cb ∧
        (get_performance_summary egHistOne).starting_balance = some START_BALANCE ∧
        (get_performance_summary egHistOne).total_return = some (cb - START_BALANCE)) := by
  have hne : egHistOne.history ≠ [] := by simp [egHistOne]
  exact ⟨⟨rfl, (claim_C9_amended egEmptyHist).1 rfl⟩,
    ⟨hne, ((claim_C9_amended egHistOne).2 hne).2.2.2.2⟩⟩

/-- The returned `last_closed_trade` is either absent or carries one of the
two reasons that set it. -/
def okReason : Option TradeRecord → Prop
  | none => True
  | some r => r.exit_reason = some "Stop-Loss Hit" ∨
      r.exit_reason = some "Opposite Signal"

lemma step1_last (rp : RiskPolicy) (price atr_value : ℚ) (s : TickState) :
    (step1 rp price atr_value s).last_closed_trade = s.last_closed_trade ∨
    ∃ r, (step1 rp price atr_value s).last_closed_trade = some r ∧
      r.exit_reason = some "Stop-Loss Hit" := by
  unfold step1
  cases hso : s.open_trade with
  | none => exact Or.inl rfl
  | some ot =>
    dsimp only
    cases hchk : check_tp_sl_hits (some ot) price with
    | noHit => exact Or.inl (trailingStep_spec rp price atr_value s ot).2.1
    | slHit p => exact Or.inr ⟨_, rfl, rfl⟩
    | tpHit name tpp tppct tpi =>
      dsimp only
      split_ifs with h1 h2 h3
      · exact Or.inr ⟨_, rfl, rfl⟩
      · exact Or.inl rfl
      · exact Or.inl rfl
      · exact Or.inl (trailingStep_spec rp price atr_value s ot).2.1

lemma step1_tp_last (rp : RiskPolicy) (price atr_value : ℚ) (s : TickState)
    (ot : OpenTrade) (name : String) (tpp tppct : ℚ) (tpi : ℕ)
    (hso : s.open_trade = some ot)
    (hchk : check_tp_sl_hits (some ot) price = CheckResult.tpHit name tpp tppct tpi)
    (hname : ¬ name = "SL") :
    (step1 rp price atr_value s).last_closed_trade = s.last_closed_trade := by
  simp only [step1, hso, hchk]
  rw [if_neg hname]
  split_ifs with h2 h3
  · rfl
  · rfl
  · exact (trailingStep_spec rp price atr_value s ot).2.1

lemma buyOpen_last (rp : RiskPolicy) (price atr_value utbot_stop : ℚ)
    (s : TickState) :
    (buyOpen rp price atr_value utbot_stop s).last_closed_trade = s.last_closed_trade ∨
    ∃ r, (buyOpen rp price atr_value utbot_stop s).last_closed_trade = some r ∧
      r.exit_reason = some "Opposite Signal" := by
  unfold buyOpen
  cases hso : s.open_trade with
  | none => exact Or.inl rfl
  | some ot =>
    dsimp only
    split_ifs with h
    · exact Or.inr ⟨_, rfl, rfl⟩
    · exact Or.inl rfl

lemma sellOpen_last (rp : RiskPolicy) (price atr_value utbot_stop : ℚ)
    (s : TickState) :
    (sellOpen rp price atr_value utbot_stop s).last_closed_trade = s.last_closed_trade ∨
    ∃ r, (sellOpen rp price atr_value utbot_stop s).last_closed_trade = some r ∧
      r.exit_reason = some "Opposite Signal" := by
  unfold sellOpen
  cases hso : s.open_trade with
  | none => exact Or.inl rfl
  | some ot =>
    dsimp only
    split_ifs with h
    · exact Or.inr ⟨_, rfl, rfl⟩
    · exact Or.inl rfl

lemma signal_step_last (rp : RiskPolicy) (sg : String)
    (price atr_value utbot_stop : ℚ) (s : TickState) :
    (signal_step rp sg price atr_value utbot_stop s).last_closed_trade =
      s.last_closed_trade ∨
    ∃ r, (signal_step rp sg price atr_value utbot_stop s).last_closed_trade = some r ∧
      r.exit_reason = some "Opposite Signal" := by
  unfold signal_step
  split_ifs with h1 h2 h3 h4
  · exact Or.inl rfl
  · exact Or.inl rfl
  · dsimp only
    split_ifs with htc
    · exact Or.inl rfl
    · cases hso : s.open_trade with
      | none => exact buyOpen_last rp price atr_value utbot_stop s
      | some ot =>
        dsimp only
        split_ifs with hty
        · exact Or.inl rfl
        · exact buyOpen_last rp price atr_value utbot_stop s
  · dsimp only
    split_ifs with htc
    · exact Or.inl rfl
    · cases hso : s.open_trade with
      | none => exact sellOpen_last rp price atr_value utbot_stop s
      | some ot =>
        dsimp only
        split_ifs with hty
        · exact Or.inl rfl
        · exact sellOpen_last rp price atr_value utbot_stop s
  · exact Or.inl rfl

/-- The tick-local state as `update_demo_trade` initializes it. -/
def initTick (signal : String) (price : ℚ) (data : TradeData) : TickState :=
  { data := data, open_trade := data.open_trade, action_message := "",
    last_closed_trade := none,
    log_entry :=
      { side := signal, price := price, quantity := COINS_PER_TRADE,
        action := none, pl_inr := none, stop_loss := none, take_profits := none } }

/-- **C10** — (1) every `last_closed_trade` returned by a tick carries reason
`"Stop-Loss Hit"` or `"Opposite Signal"`; (2) a step-1 take-profit exit —
including when the last level is hit and the remainder is full-closed with
reason `"All TPs Hit"` — never sets `last_closed_trade`; (3) hence a tick
whose step 1 is TP-triggered returns a null `last_closed_trade` unless the
signal step performs an opposite-signal close in the same tick. -/
theorem claim_C10 :
    (∀ (rp : RiskPolicy) (signal : String) (price atr_value utbot_stop : ℚ)
        (data : TradeData),
      okReason (update_demo_trade rp signal price atr_value utbot_stop data).2.1) ∧
    (∀ (rp : RiskPolicy) (price atr_value : ℚ) (s : TickState) (ot : OpenTrade)
        (name : String) (tpp tppct : ℚ) (tpi : ℕ),
      s.open_trade = some ot →
      check_tp_sl_hits (some ot) price = CheckResult.tpHit name tpp tppct tpi →
      ¬ name = "SL" →
      (step1 rp price atr_value s).last_closed_trade = s.last_closed_trade) ∧
    (∀ (rp : RiskPolicy) (signal : String) (price atr_value utbot_stop : ℚ)
        (data : TradeData) (ot : OpenTrade) (name : String) (tpp tppct : ℚ) (tpi : ℕ),
      data.open_trade = some ot →
      check_tp_sl_hits (some ot) price = CheckResult.tpHit name tpp tppct tpi →
      ¬ name = "SL" →
      ((update_demo_trade rp signal price atr_value utbot_stop data).2.1 = none ∨
        ∃ r, (update_demo_trade rp signal price atr_value utbot_stop data).2.1 = some r ∧
          r.exit_reason = some "Opposite Signal")) := by
  refine ⟨?_, fun rp price atr_value s ot name tpp tppct tpi hso hchk hname =>
    step1_tp_last rp price atr_value s ot name tpp tppct tpi hso hchk hname, ?_⟩
  · intro rp signal price atr_value utbot_stop data
    show okReason (signal_step rp (pyCapitalize signal) price atr_value utbot_stop
      (step1 rp price atr_value (initTick (pyCapitalize signal) price data))).last_closed_trade
    rcases signal_step_last rp (pyCapitalize signal) price atr_value utbot_stop
        (step1 rp price atr_value (initTick (pyCapitalize signal) price data)) with
      h | ⟨r, hr, hreason⟩
    · rw [h]
      rcases step1_last rp price atr_value (initTick (pyCapitalize signal) price data) with
        h2 | ⟨r, hr2, hre2⟩
      · rw [h2]; trivial
      · rw [hr2]; exact Or.inl hre2
    · rw [hr]; exact Or.inr hreason
  · intro rp signal price atr_value utbot_stop data ot name tpp tppct tpi hdata hchk hname
    show (signal_step rp (pyCapitalize signal) price atr_value utbot_stop
        (step1 rp price atr_value (initTick (pyCapitalize signal) price data))).last_closed_trade
          = none ∨
      ∃ r, (signal_step rp (pyCapitalize signal) price atr_value utbot_stop
        (step1 rp price atr_value
          (initTick (pyCapitalize signal) price data))).last_closed_trade = some r ∧
        r.exit_reason = some "Opposite Signal"
    have hso : (initTick (pyCapitalize signal) price data).open_trade = some ot := hdata
    have hstep : (step1 rp price atr_value
        (initTick (pyCapitalize signal) price data)).last_closed_trade = none :=
      step1_tp_last rp price atr_value (initTick (pyCapitalize signal) price data)
        ot name tpp tppct tpi hso hchk hname
    rcases signal_step_last rp (pyCapitalize signal) price atr_value utbot_stop
        (step1 rp price atr_value (initTick (pyCapitalize signal) price data)) with
      h | ⟨r, hr, hreason⟩
    · rw [h, hstep]
      exact Or.inl rfl
    · exact Or.inr ⟨r, hr, hreason⟩

/-- Witness for C10: an ordinary stop-loss tick satisfies the reason
condition; the concrete TP1 tick leaves `last_closed_trade` untouched in
step 1 and the whole tick returns none. -/
theorem claim_C10_witness :
    okReason (update_demo_trade specPolicy "hold" 90 1 0 egLongData).2.1 ∧
    (egLongState.open_trade = some egLong ∧
      check_tp_sl_hits (some egLong) 101 = CheckResult.tpHit "TP1" 101 50 0 ∧
      (step1 specPolicy 101 1 egLongState).last_closed_trade =
        egLongState.last_closed_trade) ∧
    ((update_demo_trade specPolicy "hold" 101 1 0 egLongData).2.1 = none ∨
      ∃ r, (update_demo_trade specPolicy "hold" 101 1 0 egLongData).2.1 = some r ∧
        r.exit_reason = some "Opposite Signal") := by
  have hchk : check_tp_sl_hits (some egLong) 101 = CheckResult.tpHit "TP1" 101 50 0 := by
    norm_num [check_tp_sl_hits, findTpHit, egLong,
      (by decide : ("LONG" : String) ≠ "SHORT")]
  exact ⟨claim_C10.1 specPolicy "hold" 90 1 0 egLongData,
    ⟨rfl, hchk,
      claim_C10.2.1 specPolicy 101 1 egLongState egLong "TP1" 101 50 0 rfl hchk (by decide)⟩,
    claim_C10.2.2 specPolicy "hold" 101 1 0 egLongData egLong "TP1" 101 50 0 rfl hchk
      (by decide)⟩
